import Mathlib

/-!
Shallow embedding of the client-side Session and Authorization subsystem of
the jewelry-erp-frontend repository, together with theorems settling the
frozen claims about it.

Embedded source locations:
  - src/src/api/client.ts: the axios Transport Wrapper with its request and
    response interceptors (401 teardown).
  - src/unnamed/part_007 (hooks/useAuth.ts): the useAuth hook — the query
    with key [auth, me] (enabled, retry, onError), the login mutation and
    the logout function.
  - src/src/components/AdminProtectedRoute.tsx: the role-restricted guard.
  - src/src/hooks/useOrgConfig.ts: the organization-config query.

The Durable Session Store is the browser localStorage restricted to the two
keys the code touches (token and user); removeItem on a missing key is a
no-op that raises no error, so the store is a pair of Option fields and
removal is setting a field to none. JavaScript execution is single-threaded
run-to-completion, so each synchronous handler body is one atomic step of
the state machine; asynchronous interleaving happens only between steps.
-/

namespace JewelryFrontend

/-- A user snapshot as returned by the backend (interface User in
src/src/api/auth.ts). The role is a plain string in the source
(role: string), so it is a String here; the organization subobject is
flattened to the fields the core reads. -/
structure UserSnapshot where
  id : String
  email : String
  name : String
  role : String
  orgId : String
  deriving Repr, DecidableEq

/-- The Durable Session Store: localStorage restricted to the keys token and
user, the only keys the session code reads or writes. A none field means the
key is absent. The user key holds a serialized snapshot; serialization is
kept abstract by storing the snapshot itself. -/
structure Store where
  token : Option String
  user : Option UserSnapshot
  deriving Repr, DecidableEq

/-- The store with both keys absent. -/
def emptyStore : Store := { token := none, user := none }

/-- An axios rejection value as observed by the response interceptor in
src/src/api/client.ts. The field status is error.response?.status: none when
there is no response at all (network or transport error). The tag
distinguishes error objects, so that propagating the same error is
expressible as equality. -/
structure AxiosError where
  status : Option Nat
  tag : Nat
  deriving Repr, DecidableEq

/-- One observable side effect of the transport layer error handler. -/
inductive Effect where
  | removeItem (key : String)
  | setLocationHref (path : String)
  | httpRequest (path : String)
  | rejectWith (e : AxiosError)
  deriving Repr, DecidableEq

/-- The rejected-response interceptor of the Transport Wrapper
(src/src/api/client.ts lines 27 to 38), as the ordered list of effects its
body performs: on status 401 it removes the token key, removes the user key,
assigns window.location.href to /login, and finally rejects with the very
error it received; on any other failure it only rejects with that error. It
issues no outbound request in either branch. -/
def responseErrorHandler (e : AxiosError) : List Effect :=
  if e.status = some 401 then
    [Effect.removeItem "token", Effect.removeItem "user",
     Effect.setLocationHref "/login", Effect.rejectWith e]
  else
    [Effect.rejectWith e]

/-- Interpretation of one effect on the Durable Session Store. Only
removeItem touches the store; removing an absent key is a no-op. -/
def applyEffect (s : Store) (ef : Effect) : Store :=
  match ef with
  | Effect.removeItem k =>
      if k = "token" then { s with token := none }
      else if k = "user" then { s with user := none }
      else s
  | _ => s

/-- Interpretation of an effect list on the store, left to right. -/
def applyEffects (s : Store) (efs : List Effect) : Store :=
  efs.foldl applyEffect s

/-- Global session teardown on the store: what the 401 branch of the
interceptor, logout, and the identity-query error handler all do to the
store — remove the token key and the user key. -/
def sessionTeardown (s : Store) : Store := { s with token := none, user := none }

/-- The operations of the repository that write the Durable Session Store.
Each is one synchronous JavaScript handler body, hence one atomic step:
  - loginSuccess: the onSuccess of the login mutation (part_007 lines 243
    to 248) and the Login page submit handler — setItem token then
    setItem user;
  - logoutOp: the logout function (part_007 lines 252 to 257) —
    removeItem token then removeItem user;
  - teardown401: the 401 branch of the response interceptor
    (client.ts lines 30 to 35) — removeItem token then removeItem user;
  - authMeErrorOp: the onError of the identity query (part_007 lines 232
    to 237) — removeItem token then removeItem user. -/
inductive SessionOp where
  | loginSuccess (token : String) (user : UserSnapshot)
  | logoutOp
  | teardown401
  | authMeErrorOp
  deriving Repr, DecidableEq

/-- Effect of one session operation on the store, read off the handler
bodies in the source. -/
def applyOp (s : Store) : SessionOp → Store
  | SessionOp.loginSuccess t u => { token := some t, user := some u }
  | SessionOp.logoutOp => sessionTeardown s
  | SessionOp.teardown401 => sessionTeardown s
  | SessionOp.authMeErrorOp => sessionTeardown s

/-- Effect of a sequence of session operations on the store. -/
def runOps (s : Store) (ops : List SessionOp) : Store :=
  ops.foldl applyOp s

/-- A store is consistent when a removed token never coexists with a
retained user snapshot: the partial state the spec forbids is a store with
token absent and user present. -/
def consistentStore (s : Store) : Prop := s.token = none → s.user = none

instance (s : Store) : Decidable (consistentStore s) := by
  unfold consistentStore; infer_instance

/-- The isAuthenticated predicate of the useAuth hook (part_007 line 259):
double negation of localStorage.getItem(token), true iff the token key is
present. The useOrgConfig enabled gate (useOrgConfig.ts line 20) and the
identity-query enabled gate (part_007 line 230) are the same expression. -/
def isAuthenticated (s : Store) : Bool := s.token.isSome

/-- The retry option of the identity query with key [auth, me]
(part_007 line 231): retry is false, the fetch is never retried. -/
def authMeRetry : Bool := false

/-- Effects of the onError handler of the identity query, beyond the store:
it calls the router navigate function (a client-side push navigation, not a
location assignment). -/
structure AuthErrorEffects where
  store : Store
  routerNav : Option String
  deriving Repr, DecidableEq

/-- The onError handler of the identity query (part_007 lines 232 to 237).
Its source takes no parameter at all — it ignores which error occurred —
and unconditionally removes the token key, removes the user key and
navigates to /login. The error argument is kept here to state that the
handler runs for every failure and does not depend on it. -/
def authMeOnError (s : Store) (_e : AxiosError) : AuthErrorEffects :=
  { store := sessionTeardown s, routerNav := some "/login" }

/-- Decision rendered by a route guard on one render pass. -/
inductive GuardDecision where
  | spinner
  | redirect (path : String)
  | render
  deriving Repr, DecidableEq

/-- The admission predicate of AdminProtectedRoute
(src/src/components/AdminProtectedRoute.tsx line 37): the user role string
compared against the literal admin, or against the literal ORG_ADMIN, with
an absent user failing both comparisons. -/
def isAdmin (user : Option UserSnapshot) : Bool :=
  match user with
  | some u => u.role = "admin" || u.role = "ORG_ADMIN"
  | none => false

/-- The AdminProtectedRoute render function
(src/src/components/AdminProtectedRoute.tsx lines 13 to 44): while loading
render the spinner; if not authenticated, Navigate replace to /login; if
the admission predicate fails, Navigate replace to /dashboard; otherwise
render the children. -/
def adminProtectedRoute (isLoading : Bool) (isAuth : Bool)
    (user : Option UserSnapshot) : GuardDecision :=
  if isLoading then GuardDecision.spinner
  else if !isAuth then GuardDecision.redirect "/login"
  else if !(isAdmin user) then GuardDecision.redirect "/dashboard"
  else GuardDecision.render

/-- State of a shared query-cache entry. The repository delegates caching to
the framework query client; the entry states are those of the spec data
model: absent, loading (with the number of consumers joined to the in-flight
fetch), ready, errored. -/
inductive EntryState (α : Type) where
  | absent
  | loading (waiters : Nat)
  | ready (value : α)
  | errored
  deriving Repr, DecidableEq

/-- Modelled from the spec: the deduplication behaviour of the shared query
cache is framework code absent from src/; per the spec, a consumer request
arriving while the entry is absent starts the single fetch, a request
arriving while a fetch is in flight joins it without a new network call, and
a settled entry answers from cache. The second component counts network
calls issued by this request. -/
def requestOne {α : Type} : EntryState α × Nat → EntryState α × Nat
  | (EntryState.absent, k) => (EntryState.loading 1, k + 1)
  | (EntryState.loading m, k) => (EntryState.loading (m + 1), k)
  | (EntryState.ready u, k) => (EntryState.ready u, k)
  | (EntryState.errored, k) => (EntryState.errored, k)

/-- Modelled from the spec: n logically concurrent consumer requests against
one shared entry, processed in arrival order on the single-threaded event
loop; returns the entry state and the total number of network calls issued. -/
def processRequests {α : Type} (st : EntryState α) (n : Nat) : EntryState α × Nat :=
  Nat.rec (st, 0) (fun _ acc => requestOne acc) n

/-- Modelled from the spec: resolution of the single in-flight fetch with
value u settles the shared entry to ready u; a resolution arriving at a
settled or absent entry changes nothing. -/
def resolveFetch {α : Type} (st : EntryState α) (u : α) : EntryState α :=
  match st with
  | EntryState.loading _ => EntryState.ready u
  | other => other

/-- What a consumer reading the shared entry observes: the resolved value
when the entry is ready, nothing otherwise. All consumers read the one
shared entry, so they observe the same value. -/
def observeEntry {α : Type} (st : EntryState α) : Option α :=
  match st with
  | EntryState.ready u => some u
  | _ => none

/-- The first consumer request for identity: the query with key [auth, me]
(part_007 lines 227 to 231) has enabled set to the presence of the token
key, so when a token is present the first request starts the single fetch
through the Transport Wrapper, and when it is absent the query is disabled —
no network call, the entry stays absent. The fetch machinery itself is the
spec-modelled requestOne. -/
def firstIdentityRequest (s : Store) : EntryState UserSnapshot × Nat :=
  if isAuthenticated s then requestOne (EntryState.absent, 0)
  else (EntryState.absent, 0)

/-- The query options of useOrgConfig (src/src/hooks/useOrgConfig.ts lines
17 to 26), transcribed field by field. -/
structure QueryOptions where
  enabled : Bool
  retryCount : Nat
  staleTimeMs : Nat
  cacheTimeMs : Nat
  refetchOnWindowFocus : Bool
  refetchOnReconnect : Bool
  deriving Repr, DecidableEq

/-- The option record passed to useQuery by useOrgConfig, with enabled the
double negation of localStorage.getItem(token) on the given store. -/
def orgConfigQueryOptions (s : Store) : QueryOptions :=
  { enabled := isAuthenticated s
    retryCount := 2
    staleTimeMs := 5 * 60 * 1000
    cacheTimeMs := 10 * 60 * 1000
    refetchOnWindowFocus := false
    refetchOnReconnect := false }

/-- A read of the Scoped Config Cache by a first consumer. Modelled from the
spec for the framework part: a disabled query resolves immediately with no
entry and no request, an enabled one starts the single fetch. The enabled
gate itself is the transcribed option record; the config payload is kept
abstract as a string. -/
def readOrgConfig (s : Store) : EntryState String × Nat :=
  if (orgConfigQueryOptions s).enabled then requestOne (EntryState.absent, 0)
  else (EntryState.absent, 0)

/-- Session-level state for the stale-resolution race: the store, the shared
identity entry, and a session epoch counting teardowns, used to decide
whether a resolution still belongs to the current session. -/
structure AuthState where
  store : Store
  epoch : Nat
  identity : EntryState UserSnapshot
  deriving Repr, DecidableEq

/-- The logout function of useAuth (part_007 lines 252 to 257): removeItem
token, removeItem user, clear the whole query cache, navigate to /login.
Clearing the cache ends the current session generation: the epoch advances
and the identity entry becomes absent. -/
def logoutController (st : AuthState) : AuthState × Option String :=
  ({ store := sessionTeardown st.store
     epoch := st.epoch + 1
     identity := EntryState.absent }, some "/login")

/-- Modelled from the spec: application of a resolved identity fetch to the
cache is framework code absent from src/; per the spec, cache writes are
gated on whether the response still belongs to the current session, so a
resolution carrying the epoch at which its request was issued is applied
only when that epoch is still current, and is discarded otherwise. -/
def applyResolvedIdentity (st : AuthState) (requestEpoch : Nat)
    (u : UserSnapshot) : AuthState :=
  if requestEpoch = st.epoch then { st with identity := EntryState.ready u }
  else st

/-- All effects observable after a failed login call settles. -/
structure LoginFailEffects where
  store : Store
  identity : EntryState UserSnapshot
  hardNav : Option String
  routerNav : Option String
  errorShown : Bool
  deriving Repr, DecidableEq

/-- The failure path of a login call. The request goes out through the
shared client (src/src/api/auth.ts line 29), so on rejection the response
interceptor of client.ts runs first: when the failure carries status 401 it
removes the token and user keys and assigns window.location.href to /login;
otherwise it leaves everything alone. The login mutation (part_007 lines 241
to 249) declares no onError, so it writes neither the store nor the query
cache on failure, and the Login page catch block only renders a descriptive
message. -/
def loginFailure (s : Store) (identity : EntryState UserSnapshot)
    (e : AxiosError) : LoginFailEffects :=
  if e.status = some 401 then
    { store := sessionTeardown s, identity := identity
      hardNav := some "/login", routerNav := none, errorShown := true }
  else
    { store := s, identity := identity
      hardNav := none, routerNav := none, errorShown := true }

/-- Sample STAFF user for concrete instantiations. -/
def sampleStaff : UserSnapshot :=
  { id := "u-staff", email := "staff@x.com", name := "Staff Member",
    role := "STAFF", orgId := "org-1" }

/-- Sample ORG_ADMIN user for concrete instantiations. -/
def sampleOrgAdmin : UserSnapshot :=
  { id := "u-oa", email := "oa@x.com", name := "Org Admin",
    role := "ORG_ADMIN", orgId := "org-1" }

/-- Sample SUPER_ADMIN user for concrete instantiations. -/
def sampleSuperAdmin : UserSnapshot :=
  { id := "u-sa", email := "sa@x.com", name := "Super Admin",
    role := "SUPER_ADMIN", orgId := "org-1" }

/-- Sample store holding a live session, for concrete instantiations. -/
def liveStore : Store := { token := some "t1", user := some sampleStaff }

/-- Sample logged-in auth state at epoch 0, for concrete instantiations. -/
def sampleAuthState : AuthState :=
  { store := liveStore
    epoch := 0
    identity := EntryState.ready sampleStaff }

/-- On a 401 rejection, running the interceptor effect list over the store is
exactly the global session teardown. -/
theorem applyEffects_handler_401 (t : Store) (e : AxiosError)
    (h : e.status = some 401) :
    applyEffects t (responseErrorHandler e) = sessionTeardown t := by
  unfold responseErrorHandler
  rw [if_pos h]
  rfl

/-- Iterating the session teardown at least once equals one teardown. -/
theorem iterate_sessionTeardown (n : Nat) (s : Store) :
    Nat.iterate sessionTeardown (n + 1) s = sessionTeardown s := by
  induction n generalizing s with
  | zero => rfl
  | succ m ih =>
      rw [Function.iterate_succ_apply]
      rw [ih]
      rfl

/-- Each session operation preserves store consistency. -/
theorem applyOp_consistent (s : Store) (op : SessionOp)
    (_h : consistentStore s) : consistentStore (applyOp s op) := by
  cases op <;> simp [applyOp, consistentStore, sessionTeardown]

/-- Any sequence of session operations preserves store consistency. -/
theorem runOps_consistent (ops : List SessionOp) (s : Store)
    (h : consistentStore s) : consistentStore (runOps s ops) := by
  induction ops generalizing s with
  | nil => exact h
  | cons op rest ih =>
      simp only [runOps, List.foldl] at *
      exact ih (applyOp s op) (applyOp_consistent s op h)

/-- Processing one or more concurrent requests against an absent entry
leaves the entry loading with all waiters joined and exactly one call. -/
theorem processRequests_absent_succ {α : Type} (n : Nat) :
    processRequests (EntryState.absent : EntryState α) (n + 1) =
      (EntryState.loading (n + 1), 1) := by
  induction n with
  | zero => rfl
  | succ m ih =>
      show requestOne (processRequests (EntryState.absent : EntryState α) (m + 1)) = _
      rw [ih]
      rfl

/-- C1: the response interceptor handles every 401 by removing the token key
and the user key from the Durable Session Store and assigning the location
to /login, all strictly before rejecting with the very error object it
received (the same error, not a replacement), and its effect list contains
no outbound request, so the failed request is never retried. -/
theorem interceptor401_teardown (s : Store) (e : AxiosError)
    (h : e.status = some 401) :
    responseErrorHandler e =
      [Effect.removeItem "token", Effect.removeItem "user",
       Effect.setLocationHref "/login", Effect.rejectWith e] ∧
    (applyEffects s (responseErrorHandler e)).token = none ∧
    (applyEffects s (responseErrorHandler e)).user = none ∧
    (∀ p, Effect.httpRequest p ∉ responseErrorHandler e) := by
  have hl : responseErrorHandler e =
      [Effect.removeItem "token", Effect.removeItem "user",
       Effect.setLocationHref "/login", Effect.rejectWith e] := by
    unfold responseErrorHandler
    rw [if_pos h]
  refine ⟨hl, ?_, ?_, ?_⟩
  · rw [applyEffects_handler_401 s e h]
    rfl
  · rw [applyEffects_handler_401 s e h]
    rfl
  · intro p hp
    rw [hl] at hp
    simp at hp

/-- Witness for interceptor401_teardown at a concrete 401 error and a store
holding a live session. -/
theorem interceptor401_teardown_witness :
    ({ status := some 401, tag := 3 } : AxiosError).status = some 401 ∧
    (applyEffects { token := some "t1", user := some sampleStaff }
      (responseErrorHandler { status := some 401, tag := 3 })).token = none :=
  ⟨rfl, (interceptor401_teardown { token := some "t1", user := some sampleStaff }
    { status := some 401, tag := 3 } rfl).2.1⟩

/-- C2: a resolved identity fetch whose request was issued at or before the
epoch current when logout ran is discarded by the epoch gate: applied to the
post-logout state it changes nothing, and the Identity Cache entry stays
absent — a stale resolution never repopulates the cleared cache. -/
theorem staleResolution_discarded (st : AuthState) (reqEpoch : Nat)
    (u : UserSnapshot) (h : reqEpoch ≤ st.epoch) :
    applyResolvedIdentity (logoutController st).1 reqEpoch u =
      (logoutController st).1 ∧
    (applyResolvedIdentity (logoutController st).1 reqEpoch u).identity =
      EntryState.absent := by
  have hne : reqEpoch ≠ (logoutController st).1.epoch := by
    simp only [logoutController]
    omega
  have happ : applyResolvedIdentity (logoutController st).1 reqEpoch u =
      (logoutController st).1 := by
    unfold applyResolvedIdentity
    rw [if_neg hne]
  refine ⟨happ, ?_⟩
  rw [happ]
  rfl

/-- Witness for staleResolution_discarded: a fetch issued at epoch 0 whose
resolution arrives after the logout that ended epoch 0. -/
theorem staleResolution_discarded_witness :
    (0 : Nat) ≤ sampleAuthState.epoch ∧
    (applyResolvedIdentity (logoutController sampleAuthState).1 0
      sampleStaff).identity = EntryState.absent :=
  ⟨Nat.le_refl 0,
    (staleResolution_discarded sampleAuthState 0 sampleStaff (Nat.zero_le _)).2⟩

/-- C3: evaluation of AdminProtectedRoute at the failing input. A resolved
session whose user has role SUPER_ADMIN is redirected to /dashboard instead
of being admitted, because the admission predicate in the source compares
against the literal admin — a string that never occurs in the role
enumeration of the repository (SUPER_ADMIN, ORG_ADMIN, STAFF in the zod
schema of the admin Users page) — rather than against SUPER_ADMIN. The
remaining branches behave as the claim states: ORG_ADMIN renders, STAFF is
redirected to /dashboard, and a missing session is redirected to /login. -/
theorem adminGuard_super_admin_redirected :
    adminProtectedRoute false true (some sampleSuperAdmin) =
      GuardDecision.redirect "/dashboard" ∧
    isAdmin (some sampleSuperAdmin) = false ∧
    adminProtectedRoute false true (some sampleOrgAdmin) = GuardDecision.render ∧
    adminProtectedRoute false true (some sampleStaff) =
      GuardDecision.redirect "/dashboard" ∧
    adminProtectedRoute false false none = GuardDecision.redirect "/login" := by
  decide

/-- C4 counterexample: a login failure whose rejection carries status 401
passes through the shared transport interceptor, which removes the token key
from a store holding a stale token and assigns the location to /login — the
store is not exactly as before the call and a navigation is triggered,
contradicting the claim as stated. -/
theorem loginFailure401_mutates_and_navigates :
    (loginFailure liveStore EntryState.absent
      { status := some 401, tag := 7 }).store ≠ liveStore ∧
    (loginFailure liveStore EntryState.absent
      { status := some 401, tag := 7 }).hardNav = some "/login" := by
  decide

/-- C4 amended: for every failing login whose rejection does not carry
status 401 (network errors and non-401 credential rejections), a descriptive
error is shown and nothing else happens — the store, the Identity Cache
entry and both navigation channels are exactly as before; a failing login
whose rejection does carry status 401 instead undergoes the global 401
teardown of the transport layer (token and user keys removed, hard
navigation to /login), while the login mutation itself still writes neither
the store nor the cache. -/
theorem loginFailure_non401_no_mutation (s : Store)
    (idn : EntryState UserSnapshot) (e : AxiosError)
    (h : e.status ≠ some 401) :
    loginFailure s idn e =
      { store := s, identity := idn, hardNav := none,
        routerNav := none, errorShown := true } ∧
    ∀ f : AxiosError, f.status = some 401 →
      loginFailure s idn f =
        { store := sessionTeardown s, identity := idn,
          hardNav := some "/login", routerNav := none, errorShown := true } := by
  constructor
  · unfold loginFailure
    rw [if_neg h]
  · intro f hf
    unfold loginFailure
    rw [if_pos hf]

/-- Witness for loginFailure_non401_no_mutation at a concrete network error
(no response, hence no status). -/
theorem loginFailure_non401_no_mutation_witness :
    ({ status := none, tag := 1 } : AxiosError).status ≠ some 401 ∧
    loginFailure liveStore EntryState.absent { status := none, tag := 1 } =
      { store := liveStore, identity := EntryState.absent, hardNav := none,
        routerNav := none, errorShown := true } :=
  ⟨by decide,
    (loginFailure_non401_no_mutation liveStore EntryState.absent
      { status := none, tag := 1 } (by decide)).1⟩

/-- C5: every store-clearing operation of the repository (logout, 401
teardown, identity-fetch error handling) removes the token key and the user
key in the same atomic step, and consequently, starting from any consistent
store, every store state observable between operations remains consistent —
no observer ever sees a store whose token has been removed while a stale
user snapshot is retained. -/
theorem sessionOps_clear_atomically (s : Store) (ops : List SessionOp)
    (h : consistentStore s) :
    consistentStore (runOps s ops) ∧
    (applyOp s SessionOp.logoutOp).token = none ∧
    (applyOp s SessionOp.logoutOp).user = none ∧
    (applyOp s SessionOp.teardown401).token = none ∧
    (applyOp s SessionOp.teardown401).user = none ∧
    (applyOp s SessionOp.authMeErrorOp).token = none ∧
    (applyOp s SessionOp.authMeErrorOp).user = none :=
  ⟨runOps_consistent ops s h, rfl, rfl, rfl, rfl, rfl, rfl⟩

/-- Witness for sessionOps_clear_atomically on a live store and a login
followed by a logout. -/
theorem sessionOps_clear_atomically_witness :
    consistentStore liveStore ∧
    consistentStore (runOps liveStore
      [SessionOp.loginSuccess "t2" sampleOrgAdmin, SessionOp.logoutOp]) :=
  ⟨by decide,
    (sessionOps_clear_atomically liveStore
      [SessionOp.loginSuccess "t2" sampleOrgAdmin, SessionOp.logoutOp]
      (by decide)).1⟩

/-- C6: any positive number of logically concurrent identity requests
arriving while no fetch is in flight issues exactly one network call —
hence at most one — and once the single fetch resolves, the one shared
entry is ready with the resolved value, so every requesting consumer
observes that same value. -/
theorem identityRequests_deduplicated (n : Nat) (u : UserSnapshot)
    (h : 1 ≤ n) :
    (processRequests (EntryState.absent : EntryState UserSnapshot) n).2 = 1 ∧
    observeEntry (resolveFetch
      (processRequests (EntryState.absent : EntryState UserSnapshot) n).1 u) =
      some u := by
  obtain ⟨m, rfl⟩ : ∃ m, n = m + 1 := ⟨n - 1, by omega⟩
  rw [processRequests_absent_succ]
  exact ⟨rfl, rfl⟩

/-- Witness for identityRequests_deduplicated with three concurrent
consumers. -/
theorem identityRequests_deduplicated_witness :
    (1 : Nat) ≤ 3 ∧
    (processRequests (EntryState.absent : EntryState UserSnapshot) 3).2 = 1 ∧
    observeEntry (resolveFetch
      (processRequests (EntryState.absent : EntryState UserSnapshot) 3).1
      sampleStaff) = some sampleStaff :=
  ⟨by decide, identityRequests_deduplicated 3 sampleStaff (by decide)⟩

/-- C7: the first consumer request for identity issues exactly one fetch
when a token is present in the Durable Session Store at that moment, and
makes no network call when the token is absent, in which case the entry
stays absent and no value is observable. -/
theorem firstIdentityRequest_gated (s : Store) :
    (firstIdentityRequest s).2 = (if isAuthenticated s then 1 else 0) ∧
    (firstIdentityRequest s).1 =
      (if isAuthenticated s then EntryState.loading 1 else EntryState.absent) ∧
    observeEntry (firstIdentityRequest s).1 = none := by
  unfold firstIdentityRequest
  cases h : isAuthenticated s <;> simp [requestOne, observeEntry]

/-- C8: a read of the Scoped Config Cache performed while isAuthenticated is
false short-circuits: the query is disabled, the entry resolves to absent
with no observable value, and no network request is issued. -/
theorem orgConfigRead_unauthenticated (s : Store)
    (h : isAuthenticated s = false) :
    readOrgConfig s = (EntryState.absent, 0) ∧
    observeEntry (readOrgConfig s).1 = none ∧
    (orgConfigQueryOptions s).enabled = false := by
  have he : (orgConfigQueryOptions s).enabled = false := h
  refine ⟨?_, ?_, he⟩
  · simp [readOrgConfig, orgConfigQueryOptions, h]
  · simp [readOrgConfig, orgConfigQueryOptions, h, observeEntry]

/-- Witness for orgConfigRead_unauthenticated at the empty store. -/
theorem orgConfigRead_unauthenticated_witness :
    isAuthenticated emptyStore = false ∧
    readOrgConfig emptyStore = (EntryState.absent, 0) :=
  ⟨by decide, (orgConfigRead_unauthenticated emptyStore (by decide)).1⟩

/-- C9: global session teardown is idempotent on the Durable Session Store —
it fixes the empty store (removing an absent key is a no-op that raises no
error), and any positive number of consecutive 401 teardowns, each running
the full interceptor effect list, leaves the store in exactly the state a
single teardown produces. -/
theorem teardown_idempotent (s : Store) (e : AxiosError) (n : Nat)
    (h1 : e.status = some 401) (h2 : 1 ≤ n) :
    sessionTeardown emptyStore = emptyStore ∧
    Nat.iterate (fun t => applyEffects t (responseErrorHandler e)) n s =
      sessionTeardown s := by
  refine ⟨rfl, ?_⟩
  have hf : (fun t => applyEffects t (responseErrorHandler e)) = sessionTeardown :=
    funext (fun t => applyEffects_handler_401 t e h1)
  rw [hf]
  obtain ⟨m, rfl⟩ : ∃ m, n = m + 1 := ⟨n - 1, by omega⟩
  exact iterate_sessionTeardown m s

/-- Witness for teardown_idempotent: two concurrent 401 teardowns starting
from a live store. -/
theorem teardown_idempotent_witness :
    ({ status := some 401, tag := 9 } : AxiosError).status = some 401 ∧
    (1 : Nat) ≤ 2 ∧
    Nat.iterate
      (fun t => applyEffects t (responseErrorHandler { status := some 401, tag := 9 }))
      2 liveStore = sessionTeardown liveStore :=
  ⟨rfl, by decide,
    (teardown_idempotent liveStore { status := some 401, tag := 9 } 2 rfl
      (by decide)).2⟩

/-- C10: the onError handler of the identity query fires for every failure
of the GET /auth/me fetch — its source ignores the error entirely, so its
behaviour is identical for a 401 and for a transient transport error — and
it always removes both the token key and the user key and navigates to
/login, while the retry option of the query is false, so the fetch is never
retried: one transient failure of the identity fetch destroys the session
even when the stored token is still valid. -/
theorem authMeFailure_always_tears_down (s : Store) (e f : AxiosError) :
    (authMeOnError s e).store.token = none ∧
    (authMeOnError s e).store.user = none ∧
    (authMeOnError s e).routerNav = some "/login" ∧
    authMeOnError s e = authMeOnError s f ∧
    authMeRetry = false :=
  ⟨rfl, rfl, rfl, rfl, rfl⟩

end JewelryFrontend
